import Mathlib

/-!
Verification of the movies dashboard core (`streamlit_movie.py`).

The script loads a CSV of movies, derives slider defaults from the data,
filters the rows by year / genre / rating / budget, and renders the filtered
subset as a map, two charts and a sorted table.  We embed one dataset row as
a `MovieRecord` (numeric cells are `Option Int` / `Option ℚ`, a `none`
standing for pandas `NaN`), the sidebar state as a `FilterState`, and each
pipeline stage as a Lean function on `List MovieRecord`.
-/

/-- One row of `movies_with_coords.csv` after the numeric coercions of
`load_data` (lines 38-43): a cell that fails to parse is `none` (pandas
`NaN`).  `startYear` and `numVotes` are integral, the other numeric columns
are modelled as rationals. -/
structure MovieRecord where
  title : Option String
  startYear : Option Int
  genres : Option String
  averageRating : Option ℚ
  budget : Option ℚ
  numVotes : Option Int
  lat : Option ℚ
  lon : Option ℚ
deriving DecidableEq

/-- The sidebar state: year range slider (integers), genre multiselect
(empty list means no restriction), budget range and rating range sliders. -/
structure FilterState where
  yearLo : Int
  yearHi : Int
  genres : List String
  ratingLo : ℚ
  ratingHi : ℚ
  budgetLo : ℚ
  budgetHi : ℚ

/-- Pandas `Series.between(lo, hi)` on an integral column: inclusive on both
ends, and `NaN` compares `False`. -/
def betweenI (v : Option Int) (lo hi : Int) : Bool :=
  match v with
  | none => false
  | some x => decide (lo ≤ x) && decide (x ≤ hi)

/-- Pandas `Series.between(lo, hi)` on a float column: inclusive on both
ends, and `NaN` compares `False`. -/
def betweenQ (v : Option ℚ) (lo hi : ℚ) : Bool :=
  match v with
  | none => false
  | some x => decide (lo ≤ x) && decide (x ≤ hi)

/-- Pandas `Series.isin(values)` for the genre column: a missing genre
(`NaN`) is never a member of a list of strings. -/
def genreIsin (g : Option String) (sel : List String) : Bool :=
  match g with
  | none => false
  | some s => decide (s ∈ sel)

/-- The filter pipeline of lines 127-144: the year filter, then the genre
filter (applied only when the multiselect is non-empty, `if selected_genres:`),
then the rating filter, then the budget filter.  Each stage is a boolean-mask
row selection, i.e. `List.filter`. -/
def applyFilters (df : List MovieRecord) (s : FilterState) : List MovieRecord :=
  let d1 := df.filter (fun r => betweenI r.startYear s.yearLo s.yearHi)
  let d2 := if s.genres = [] then d1 else d1.filter (fun r => genreIsin r.genres s.genres)
  let d3 := d2.filter (fun r => betweenQ r.averageRating s.ratingLo s.ratingHi)
  d3.filter (fun r => betweenQ r.budget s.budgetLo s.budgetHi)

/-- The same pipeline with the genre stage removed: only the year, rating and
budget predicates (used to state that an empty genre selection has no
narrowing effect). -/
def applyFiltersNoGenre (df : List MovieRecord) (s : FilterState) : List MovieRecord :=
  let d1 := df.filter (fun r => betweenI r.startYear s.yearLo s.yearHi)
  let d3 := d1.filter (fun r => betweenQ r.averageRating s.ratingLo s.ratingHi)
  d3.filter (fun r => betweenQ r.budget s.budgetLo s.budgetHi)

/-- Line 45 of `load_data`: `df["genres"].fillna("\\N")` — a missing genre
cell becomes the sentinel literal. -/
def fillnaGenres (g : Option String) : String :=
  g.getD "\\N"

/-- Line 46 of `load_data`: `.replace("\\N", np.nan)` — a cell equal to the
sentinel literal becomes the missing marker. -/
def replaceSentinel (s : String) : Option String :=
  if s = "\\N" then none else some s

/-- The genres sentinel normalization of lines 45-46, as one function on a
single cell. -/
def normalizeGenres (g : Option String) : Option String :=
  replaceSentinel (fillnaGenres g)

-- Helper characterisations of the three mask predicates.

theorem betweenI_eq_true_iff (v : Option Int) (lo hi : Int) :
    betweenI v lo hi = true ↔ ∃ x, v = some x ∧ lo ≤ x ∧ x ≤ hi := by
  cases v <;> simp [betweenI]

theorem betweenQ_eq_true_iff (v : Option ℚ) (lo hi : ℚ) :
    betweenQ v lo hi = true ↔ ∃ x, v = some x ∧ lo ≤ x ∧ x ≤ hi := by
  cases v <;> simp [betweenQ]

theorem genreIsin_eq_true_iff (g : Option String) (sel : List String) :
    genreIsin g sel = true ↔ ∃ s, g = some s ∧ s ∈ sel := by
  cases g <;> simp [genreIsin]

theorem mem_applyFilters_iff (df : List MovieRecord) (s : FilterState) (r : MovieRecord) :
    r ∈ applyFilters df s ↔
      r ∈ df ∧ betweenI r.startYear s.yearLo s.yearHi = true ∧
        (s.genres = [] ∨ genreIsin r.genres s.genres = true) ∧
        betweenQ r.averageRating s.ratingLo s.ratingHi = true ∧
        betweenQ r.budget s.budgetLo s.budgetHi = true := by
  unfold applyFilters
  by_cases hg : s.genres = []
  · simp [hg, List.mem_filter]
    tauto
  · simp [hg, List.mem_filter]
    tauto

/-- C1: a record is in the filtered subset iff it is in the dataset, its
startYear, averageRating and budget are present and inside the respective
slider ranges, and either no genre is selected (in which case the genre
predicate passes every record, missing genres included) or its genre is
present and one of the selected ones.  A record missing a field of an
active predicate is excluded by that predicate. -/
theorem filter_mem_iff (df : List MovieRecord) (s : FilterState) (r : MovieRecord)
    (hmem : r ∈ df) :
    r ∈ applyFilters df s ↔
      ((∃ y, r.startYear = some y ∧ s.yearLo ≤ y ∧ y ≤ s.yearHi) ∧
       (∃ a, r.averageRating = some a ∧ s.ratingLo ≤ a ∧ a ≤ s.ratingHi) ∧
       (∃ b, r.budget = some b ∧ s.budgetLo ≤ b ∧ b ≤ s.budgetHi) ∧
       (s.genres = [] ∨ ∃ g, r.genres = some g ∧ g ∈ s.genres)) := by
  rw [mem_applyFilters_iff]
  rw [betweenI_eq_true_iff, betweenQ_eq_true_iff, betweenQ_eq_true_iff, genreIsin_eq_true_iff]
  tauto

/-- Concrete instantiation of `filter_mem_iff`: a fully present record inside
all ranges is kept. -/
theorem filter_mem_iff_witness :
    let r : MovieRecord :=
      { title := some "A", startYear := some 2005, genres := some "Drama",
        averageRating := some 7, budget := some 100, numVotes := some 10,
        lat := none, lon := none }
    let s : FilterState :=
      { yearLo := 2000, yearHi := 2010, genres := [], ratingLo := 0, ratingHi := 10,
        budgetLo := 0, budgetHi := 1000 }
    r ∈ applyFilters [r] s := by
  intro r s
  exact (filter_mem_iff [r] s r (by simp)).mpr
    (by
      refine ⟨⟨2005, rfl, by decide, by decide⟩, ⟨7, rfl, by decide, by decide⟩,
        ⟨100, rfl, by decide, by decide⟩, Or.inl rfl⟩)

theorem applyFilters_pred_of_mem (df : List MovieRecord) (s : FilterState) (r : MovieRecord)
    (h : r ∈ applyFilters df s) :
    betweenI r.startYear s.yearLo s.yearHi = true ∧
      (s.genres = [] ∨ genreIsin r.genres s.genres = true) ∧
      betweenQ r.averageRating s.ratingLo s.ratingHi = true ∧
      betweenQ r.budget s.budgetLo s.budgetHi = true :=
  ((mem_applyFilters_iff df s r).mp h).2

theorem applyFilters_sublist (df : List MovieRecord) (s : FilterState) :
    (applyFilters df s).Sublist df := by
  unfold applyFilters
  by_cases hg : s.genres = []
  · simp only [hg, if_pos]
    exact ((List.filter_sublist _).trans (List.filter_sublist _)).trans (List.filter_sublist _)
  · simp only [hg, if_neg, ite_false]
    exact (((List.filter_sublist _).trans (List.filter_sublist _)).trans
      (List.filter_sublist _)).trans (List.filter_sublist _)

theorem applyFilters_idem (df : List MovieRecord) (s : FilterState) :
    applyFilters (applyFilters df s) s = applyFilters df s := by
  have hall := fun r h => applyFilters_pred_of_mem df s r h
  conv_lhs => rw [applyFilters]
  by_cases hg : s.genres = []
  · simp only [hg, if_pos]
    rw [List.filter_eq_self.mpr (fun r hr => (hall r hr).1),
      List.filter_eq_self.mpr (fun r hr => (hall r hr).2.2.1),
      List.filter_eq_self.mpr (fun r hr => (hall r hr).2.2.2)]
  · simp only [hg, ite_false]
    rw [List.filter_eq_self.mpr (fun r hr => (hall r hr).1),
      List.filter_eq_self.mpr (fun r hr => ((hall r hr).2.1).resolve_left hg),
      List.filter_eq_self.mpr (fun r hr => (hall r hr).2.2.1),
      List.filter_eq_self.mpr (fun r hr => (hall r hr).2.2.2)]

/-- C2: the filtered subset is a sublist of the dataset (so no rows are
invented and the input row order is preserved), filtering is idempotent for
a fixed state, and an empty result is an ordinary value (witnessed by a
state whose year range excludes the only row). -/
theorem filter_sublist_idem :
    (∀ (df : List MovieRecord) (s : FilterState),
        (applyFilters df s).Sublist df ∧
        applyFilters (applyFilters df s) s = applyFilters df s) ∧
      applyFilters
        [{ title := some "A", startYear := some 1990, genres := none,
           averageRating := some 7, budget := some 100, numVotes := none,
           lat := none, lon := none }]
        { yearLo := 2000, yearHi := 2010, genres := [], ratingLo := 0, ratingHi := 10,
          budgetLo := 0, budgetHi := 1000 } = [] := by
  refine ⟨fun df s => ⟨applyFilters_sublist df s, applyFilters_idem df s⟩, ?_⟩
  simp [applyFilters, betweenI, betweenQ]

/-- C6: when the genre multiselect is empty, the filter equals the pipeline
made of the year, rating and budget predicates alone, so in particular the
genre distribution of the two results is identical. -/
theorem filter_empty_genres_eq (df : List MovieRecord) (s : FilterState)
    (hg : s.genres = []) :
    applyFilters df s = applyFiltersNoGenre df s := by
  unfold applyFilters applyFiltersNoGenre
  simp [hg]

/-- Concrete instantiation of `filter_empty_genres_eq` on a two-row dataset. -/
theorem filter_empty_genres_eq_witness :
    applyFilters
      [{ title := some "A", startYear := some 2005, genres := some "Drama",
         averageRating := some 7, budget := some 100, numVotes := none,
         lat := none, lon := none },
       { title := some "B", startYear := some 2006, genres := none,
         averageRating := some 5, budget := some 50, numVotes := none,
         lat := none, lon := none }]
      { yearLo := 2000, yearHi := 2010, genres := [], ratingLo := 0, ratingHi := 10,
        budgetLo := 0, budgetHi := 1000 } =
    applyFiltersNoGenre
      [{ title := some "A", startYear := some 2005, genres := some "Drama",
         averageRating := some 7, budget := some 100, numVotes := none,
         lat := none, lon := none },
       { title := some "B", startYear := some 2006, genres := none,
         averageRating := some 5, budget := some 50, numVotes := none,
         lat := none, lon := none }]
      { yearLo := 2000, yearHi := 2010, genres := [], ratingLo := 0, ratingHi := 10,
        budgetLo := 0, budgetHi := 1000 } :=
  filter_empty_genres_eq _ _ rfl

/-- C7: the genres sentinel normalization of lines 45-46 is idempotent, a
cell equal to the sentinel literal becomes the missing marker, and a missing
cell stays missing under re-normalization. -/
theorem normalize_genres_idem :
    (∀ g : Option String, normalizeGenres (normalizeGenres g) = normalizeGenres g) ∧
      normalizeGenres (some "\\N") = none ∧
      normalizeGenres none = none := by
  refine ⟨fun g => ?_, by simp [normalizeGenres, fillnaGenres, replaceSentinel], by
    simp [normalizeGenres, fillnaGenres, replaceSentinel]⟩
  rcases g with _ | s
  · simp [normalizeGenres, fillnaGenres, replaceSentinel]
  · by_cases h : s = "\\N" <;> simp [normalizeGenres, fillnaGenres, replaceSentinel, h]

/-- Arithmetic mean of a list of rationals (pandas `mean`): sum divided by
count. -/
def listMean (xs : List ℚ) : ℚ :=
  xs.sum / (xs.length : ℚ)

/-- Rows surviving `dropna(subset=["startYear", "genres", "averageRating"])`
(line 229), projected to the three columns the grouping needs. -/
def trendRows (l : List MovieRecord) : List (Int × String × ℚ) :=
  l.filterMap fun r =>
    match r.startYear, r.genres, r.averageRating with
    | some y, some g, some a => some (y, g, a)
    | _, _, _ => none

/-- The distinct `(startYear, genres)` group keys of line 230.  (Pandas sorts
the keys of the grouped output; none of the stated properties depend on the
output order, so the keys are listed here in deduplicated input order.) -/
def trendKeys (l : List MovieRecord) : List (Int × String) :=
  ((trendRows l).map fun t => (t.1, t.2.1)).dedup

/-- The `averageRating` values of one `(startYear, genres)` group. -/
def groupRatings (l : List MovieRecord) (k : Int × String) : List ℚ :=
  (trendRows l).filterMap fun t => if (t.1, t.2.1) = k then some t.2.2 else none

/-- Lines 227-233: `df_group`, one output row per distinct (year, genre) key
holding the mean `averageRating` of the group. -/
def dfGroup (l : List MovieRecord) : List (Int × String × ℚ) :=
  (trendKeys l).map fun k => (k.1, k.2, listMean (groupRatings l k))

/-- Synthetic dataset of the C3 example: two rows in the (2000, "Drama")
group with ratings 6 and 8. -/
def c3ds : List MovieRecord :=
  [{ title := some "A", startYear := some 2000, genres := some "Drama",
     averageRating := some 6, budget := none, numVotes := none,
     lat := none, lon := none },
   { title := some "B", startYear := some 2000, genres := some "Drama",
     averageRating := some 8, budget := none, numVotes := none,
     lat := none, lon := none }]

theorem dfGroup_key_nodup (l : List MovieRecord) :
    ((dfGroup l).map fun t => (t.1, t.2.1)).Nodup := by
  have h : ((dfGroup l).map fun t => (t.1, t.2.1)) = trendKeys l := by
    unfold dfGroup
    rw [List.map_map]
    have hc : ((fun t : Int × String × ℚ => (t.1, t.2.1)) ∘
        fun k : Int × String => (k.1, k.2, listMean (groupRatings l k))) = id := by
      funext k; rfl
    rw [hc, List.map_id]
  rw [h]
  exact List.nodup_dedup _

theorem mem_trendKeys_iff (l : List MovieRecord) (y : Int) (g : String) :
    (y, g) ∈ trendKeys l ↔ ∃ a, (y, g, a) ∈ trendRows l := by
  unfold trendKeys
  rw [List.mem_dedup, List.mem_map]
  constructor
  · rintro ⟨t, ht, hteq⟩
    obtain ⟨hy, hg2⟩ : t.1 = y ∧ t.2.1 = g := by simpa [Prod.ext_iff] using hteq
    refine ⟨t.2.2, ?_⟩
    have heta : (y, g, t.2.2) = t := by
      rw [← hy, ← hg2]
    rwa [heta]
  · rintro ⟨a, ha⟩
    exact ⟨(y, g, a), ha, rfl⟩

theorem dfGroup_key_iff (l : List MovieRecord) (y : Int) (g : String) :
    (∃ m, (y, g, m) ∈ dfGroup l) ↔ ∃ a, (y, g, a) ∈ trendRows l := by
  rw [← mem_trendKeys_iff]
  constructor
  · rintro ⟨m, hm⟩
    rcases List.mem_map.mp hm with ⟨k, hk, hkeq⟩
    obtain ⟨hy, hg2, -⟩ : k.1 = y ∧ k.2 = g ∧ listMean (groupRatings l k) = m := by
      simpa [Prod.ext_iff] using hkeq
    have heta : k = (y, g) := by
      rw [← hy, ← hg2]
    rwa [heta] at hk
  · intro hk
    exact ⟨listMean (groupRatings l (y, g)), List.mem_map.mpr ⟨(y, g), hk, rfl⟩⟩

theorem dfGroup_val (l : List MovieRecord) (y : Int) (g : String) (m : ℚ)
    (hm : (y, g, m) ∈ dfGroup l) : m = listMean (groupRatings l (y, g)) := by
  rcases List.mem_map.mp hm with ⟨k, hk, hkeq⟩
  obtain ⟨hy, hg2, hm2⟩ : k.1 = y ∧ k.2 = g ∧ listMean (groupRatings l k) = m := by
    simpa [Prod.ext_iff] using hkeq
  have heta : k = (y, g) := by
    rw [← hy, ← hg2]
  rw [← hm2, heta]


/-- C3: the Year–Genre trend output has pairwise-distinct (year, genre)
keys; a key appears in the output exactly when some row has startYear,
genres and averageRating all present with that key; each output row holds
the arithmetic mean of `averageRating` over its group; and on the synthetic
two-row (2000, "Drama") dataset with ratings 6 and 8 the output is exactly
the single row (2000, "Drama", 7). -/
theorem group_unique_mean :
    (∀ l : List MovieRecord,
        ((dfGroup l).map fun t => (t.1, t.2.1)).Nodup ∧
        (∀ (y : Int) (g : String),
            (∃ m, (y, g, m) ∈ dfGroup l) ↔ ∃ a, (y, g, a) ∈ trendRows l) ∧
        (∀ (y : Int) (g : String) (m : ℚ),
            (y, g, m) ∈ dfGroup l → m = listMean (groupRatings l (y, g)))) ∧
      dfGroup c3ds = [(2000, "Drama", 7)] := by
  constructor
  · intro l
    exact ⟨dfGroup_key_nodup l, fun y g => dfGroup_key_iff l y g, fun y g m => dfGroup_val l y g m⟩
  · simp [dfGroup, trendKeys, trendRows, groupRatings, c3ds, listMean,
      List.dedup_cons_of_mem, List.dedup_cons_of_not_mem]
    norm_num

/-- Concrete instantiation of `group_unique_mean`: its mean-value clause
applied to the (2000, "Drama") group of `c3ds`. -/
theorem group_unique_mean_witness :
    (7 : ℚ) = listMean (groupRatings c3ds (2000, "Drama")) :=
  (group_unique_mean.1 c3ds).2.2 2000 "Drama" 7
    (by rw [group_unique_mean.2]; exact List.mem_singleton.mpr rfl)

/-- The fixed column projection of lines 286-297 (`columns_to_show`): title,
startYear, genres, averageRating, budget, numVotes, lat, lon. -/
structure DisplayRow where
  title : Option String
  startYear : Option Int
  genres : Option String
  averageRating : Option ℚ
  budget : Option ℚ
  numVotes : Option Int
  lat : Option ℚ
  lon : Option ℚ
deriving DecidableEq

/-- Projection of one record to the displayed columns
(`df_filtered[columns_to_show]`). -/
def displayRow (r : MovieRecord) : DisplayRow :=
  { title := r.title, startYear := r.startYear, genres := r.genres,
    averageRating := r.averageRating, budget := r.budget, numVotes := r.numVotes,
    lat := r.lat, lon := r.lon }

/-- One sort key of `sort_values(..., ascending=False, na_position="last")`:
descending on present values, with a missing value ordered after every
present value. -/
def cmpOptDesc {α : Type} [LinearOrder α] : Option α → Option α → Ordering
  | none, none => Ordering.eq
  | none, some _ => Ordering.gt
  | some _, none => Ordering.lt
  | some x, some y => compare y x

theorem compare_swap_lo {α : Type} [LinearOrder α] (x y : α) :
    (compare x y).swap = compare y x := by
  rcases lt_trichotomy x y with h | h | h
  · rw [compare_lt_iff_lt.mpr h, compare_gt_iff_gt.mpr h]; rfl
  · subst h; rw [compare_eq_iff_eq.mpr rfl]; rfl
  · rw [compare_gt_iff_gt.mpr h, compare_lt_iff_lt.mpr h]; rfl

theorem cmpOptDesc_swap {α : Type} [LinearOrder α] (a b : Option α) :
    (cmpOptDesc a b).swap = cmpOptDesc b a := by
  rcases a with _ | x <;> rcases b with _ | y
  · rfl
  · rfl
  · rfl
  · exact compare_swap_lo y x

theorem cmpOptDesc_le_trans {α : Type} [LinearOrder α] {a b c : Option α}
    (h1 : cmpOptDesc a b ≠ Ordering.gt) (h2 : cmpOptDesc b c ≠ Ordering.gt) :
    cmpOptDesc a c ≠ Ordering.gt := by
  rcases a with _ | x <;> rcases b with _ | y <;> rcases c with _ | z <;>
      simp only [cmpOptDesc] at h1 h2 ⊢
  · decide
  · exact absurd rfl h2
  · exact absurd rfl h1
  · exact absurd rfl h1
  · decide
  · exact absurd rfl h2
  · decide
  · exact compare_le_iff_le.mpr ((compare_le_iff_le.mp h2).trans (compare_le_iff_le.mp h1))

def cmpStartYear (a b : DisplayRow) : Ordering := cmpOptDesc a.startYear b.startYear

def cmpRating (a b : DisplayRow) : Ordering := cmpOptDesc a.averageRating b.averageRating

def cmpBudget (a b : DisplayRow) : Ordering := cmpOptDesc a.budget b.budget

def cmpVotes (a b : DisplayRow) : Ordering := cmpOptDesc a.numVotes b.numVotes

instance : Batteries.TransCmp cmpStartYear where
  symm a b := cmpOptDesc_swap a.startYear b.startYear
  le_trans := cmpOptDesc_le_trans

instance : Batteries.TransCmp cmpRating where
  symm a b := cmpOptDesc_swap a.averageRating b.averageRating
  le_trans := cmpOptDesc_le_trans

instance : Batteries.TransCmp cmpBudget where
  symm a b := cmpOptDesc_swap a.budget b.budget
  le_trans := cmpOptDesc_le_trans

instance : Batteries.TransCmp cmpVotes where
  symm a b := cmpOptDesc_swap a.numVotes b.numVotes
  le_trans := cmpOptDesc_le_trans

/-- The lexicographic comparison of `sort_values(by=["startYear",
"averageRating", "budget", "numVotes"], ascending=False, na_position="last")`
(line 297): keys compared in priority order, each descending with missing
values last. -/
def keyCmp : DisplayRow → DisplayRow → Ordering :=
  compareLex (compareLex (compareLex cmpStartYear cmpRating) cmpBudget) cmpVotes

instance : Batteries.TransCmp keyCmp :=
  inferInstanceAs (Batteries.TransCmp
    (compareLex (compareLex (compareLex cmpStartYear cmpRating) cmpBudget) cmpVotes))

/-- Row order of the sorted table: `a` may precede `b` iff `a` does not
compare strictly after `b`. -/
def rowLe (a b : DisplayRow) : Bool := decide (keyCmp a b ≠ Ordering.gt)

/-- Lines 286-299: `df_display`, the filtered subset projected to the fixed
column list and sorted by the four keys (a stable sort realising the
`lexsort` of pandas `sort_values`). -/
def dfDisplay (l : List MovieRecord) : List DisplayRow :=
  (l.map displayRow).mergeSort rowLe

theorem rowLe_trans (a b c : DisplayRow) (h1 : rowLe a b = true) (h2 : rowLe b c = true) :
    rowLe a c = true := by
  rw [rowLe, decide_eq_true_iff] at *
  exact Batteries.TransCmp.le_trans h1 h2

theorem rowLe_total (a b : DisplayRow) : (rowLe a b || rowLe b a) = true := by
  rw [rowLe, rowLe]
  rcases h : keyCmp a b with _ | _ | _ <;> simp_all
  intro hgt
  have hsymm : (keyCmp a b).swap = keyCmp b a := Batteries.OrientedCmp.symm a b
  rw [h, hgt] at hsymm
  exact absurd hsymm (by decide)

theorem dfDisplay_perm (l : List MovieRecord) :
    (dfDisplay l).Perm (l.map displayRow) :=
  List.mergeSort_perm _ _

theorem dfDisplay_sorted (l : List MovieRecord) :
    (dfDisplay l).Pairwise (fun a b => keyCmp a b ≠ Ordering.gt) := by
  have h := List.sorted_mergeSort rowLe_trans rowLe_total (l.map displayRow)
  refine h.imp ?_
  intro a b hab
  rwa [rowLe, decide_eq_true_iff] at hab

/-- Row with startYear 2001 and rating 5 of the C4 example. -/
def c4rowA : MovieRecord :=
  { title := some "A", startYear := some 2001, genres := none,
    averageRating := some 5, budget := none, numVotes := none,
    lat := none, lon := none }

/-- Row with startYear 2001 and rating 9 of the C4 example. -/
def c4rowB : MovieRecord :=
  { title := some "B", startYear := some 2001, genres := none,
    averageRating := some 9, budget := none, numVotes := none,
    lat := none, lon := none }

/-- Row with startYear 1999 and rating 8 of the C4 example. -/
def c4rowC : MovieRecord :=
  { title := some "C", startYear := some 1999, genres := none,
    averageRating := some 8, budget := none, numVotes := none,
    lat := none, lon := none }

/-- The three-row dataset of the C4 example, in input order. -/
def c4ds : List MovieRecord := [c4rowA, c4rowB, c4rowC]

unseal List.merge List.mergeSort in
theorem dfDisplay_c4 :
    dfDisplay c4ds = [displayRow c4rowB, displayRow c4rowA, displayRow c4rowC] := by
  decide

/-- C4: for every non-empty subset the table adapter's output is a
permutation of the column projection of the input, consecutive rows are in
the descending four-key order (missing keys last), a row with a present
startYear always compares strictly before a row with missing startYear, and
on the example rows with startYear [2001, 2001, 1999] and ratings [5, 9, 8]
the output order is 2001/9, 2001/5, 1999/8. -/
theorem table_sort_spec :
    (∀ l : List MovieRecord, l ≠ [] →
        (dfDisplay l).Perm (l.map displayRow) ∧
        (dfDisplay l).Pairwise (fun a b => keyCmp a b ≠ Ordering.gt)) ∧
      (∀ a b : DisplayRow, a.startYear.isSome → b.startYear = none →
        keyCmp a b = Ordering.lt) ∧
      dfDisplay c4ds = [displayRow c4rowB, displayRow c4rowA, displayRow c4rowC] := by
  refine ⟨fun l _ => ⟨dfDisplay_perm l, dfDisplay_sorted l⟩, ?_, ?_⟩
  · intro a b ha hb
    obtain ⟨y, hy⟩ := Option.isSome_iff_exists.mp ha
    simp [keyCmp, compareLex, cmpStartYear, cmpOptDesc, hy, hb, Ordering.then]
  · exact dfDisplay_c4

/-- Concrete instantiation of `table_sort_spec`: its sortedness clause and
its missing-last clause applied at concrete rows. -/
theorem table_sort_spec_witness :
    (dfDisplay c4ds).Perm (c4ds.map displayRow) ∧
      keyCmp (displayRow c4rowA) (displayRow { c4rowA with startYear := none }) =
        Ordering.lt :=
  ⟨(table_sort_spec.1 c4ds (by decide)).1,
    table_sort_spec.2.1 (displayRow c4rowA) (displayRow { c4rowA with startYear := none })
      (by decide) (by decide)⟩

/-- Rows surviving `dropna(subset=["lat", "lon"])` (line 157): the mappable
rows, those with both coordinates present. -/
def dfMap (l : List MovieRecord) : List MovieRecord :=
  l.filter (fun r => r.lat.isSome && r.lon.isSome)

/-- Rows surviving `dropna(subset=["budget", "averageRating"])` (line 255):
the Budget–Rating scatter sample. -/
def dfScatter (l : List MovieRecord) : List MovieRecord :=
  l.filter (fun r => r.budget.isSome && r.averageRating.isSome)

/-- Python `round` at a fixed scale: round half to even of a rational. -/
def roundHalfEven (q : ℚ) : ℤ :=
  let f := Rat.floor q
  let r := q - (f : ℚ)
  if r < 1/2 then f
  else if 1/2 < r then f + 1
  else if f % 2 = 0 then f else f + 1

/-- Line 190: `round(row["averageRating"], 2)` — rounding to two decimal
places. -/
def roundTo2 (a : ℚ) : ℚ :=
  ((roundHalfEven (a * 100) : ℤ) : ℚ) / 100

/-- Python `int()` on a float: truncation toward zero (lines 188 and 191). -/
def pyInt (q : ℚ) : ℤ :=
  q.num.tdiv q.den

/-- The popup data of one marker (lines 186-200).  Each `none` field renders
as the "N/A" fallback of the corresponding `popup_lines` entry. -/
structure Popup where
  title : Option String
  year : Option Int
  genre : Option String
  rating : Option ℚ
  budget : Option Int
deriving DecidableEq

/-- Lines 187-198: the per-row popup values — year as an integer, rating
rounded to two decimals, budget truncated to an integer, each falling back
to "N/A" (here `none`) when the cell is missing. -/
def popupOf (r : MovieRecord) : Popup :=
  { title := r.title
    year := r.startYear
    genre := r.genres
    rating := r.averageRating.map roundTo2
    budget := r.budget.map pyInt }

/-- One marker descriptor of lines 202-206: coordinates, popup and a
plain-text tooltip.  Rows reaching this point come from `dfMap`, so both
coordinates are present and the `getD 0` defaults are never exercised. -/
structure Marker where
  lat : ℚ
  lon : ℚ
  popup : Popup
  tooltip : Option String
deriving DecidableEq

def markerOf (r : MovieRecord) : Marker :=
  { lat := r.lat.getD 0, lon := r.lon.getD 0, popup := popupOf r, tooltip := r.title }

/-- The three mutually exclusive outcomes of the map tab (lines 154-210):
the no-data notice, the no-mappable-rows notice, or a rendered map with a
centroid and a marker list. -/
inductive MapView where
  | noData : MapView
  | noMappable : MapView
  | rendered (centerLat centerLon : ℚ) (markers : List Marker) : MapView
deriving DecidableEq

/-- Lines 157-210: the map tab.  An empty filtered subset yields the
no-data notice; a non-empty subset with no mappable rows yields the
no-mappable notice; otherwise the centroid (mean lat, mean lon) of the
mappable rows and one marker per mappable row. -/
def tabMap (dfFiltered : List MovieRecord) : MapView :=
  let dm := dfMap dfFiltered
  if dfFiltered = [] then MapView.noData
  else if dm = [] then MapView.noMappable
  else
    MapView.rendered (listMean (dm.filterMap fun r => r.lat))
      (listMean (dm.filterMap fun r => r.lon)) (dm.map markerOf)

/-- Counterexample to C5 as stated: the empty filtered subset has no row
with both coordinates present, yet the map tab produces the no-data notice
of line 160, not the no-mappable-rows notice of line 162. -/
theorem map_empty_notice_cex :
    tabMap [] = MapView.noData ∧ MapView.noData ≠ MapView.noMappable := by
  constructor
  · simp [tabMap, dfMap]
  · decide

theorem dfMap_eq_nil (l : List MovieRecord)
    (h : ∀ r ∈ l, ¬(r.lat.isSome = true ∧ r.lon.isSome = true)) : dfMap l = [] := by
  rw [dfMap, List.filter_eq_nil_iff]
  intro r hr
  simp only [Bool.and_eq_true]
  exact h r hr

/-- C5 (amended): a filtered subset with no row having both lat and lon
present yields an empty-state notice — the no-data notice when the subset is
empty, otherwise the no-mappable-rows notice — and never a rendered map; a
centroid and marker list are computed only when at least one row has both
coordinates present. -/
theorem map_no_mappable_state :
    (∀ l : List MovieRecord, (∀ r ∈ l, ¬(r.lat.isSome = true ∧ r.lon.isSome = true)) →
        (l = [] → tabMap l = MapView.noData) ∧
        (l ≠ [] → tabMap l = MapView.noMappable) ∧
        ∀ cla clo ms, tabMap l ≠ MapView.rendered cla clo ms) ∧
      ∀ (l : List MovieRecord) (cla clo : ℚ) (ms : List Marker),
        tabMap l = MapView.rendered cla clo ms →
          ∃ r ∈ l, r.lat.isSome = true ∧ r.lon.isSome = true := by
  constructor
  · intro l h
    have hdm : dfMap l = [] := dfMap_eq_nil l h
    refine ⟨fun hl => ?_, fun hl => ?_, fun cla clo ms => ?_⟩
    · rw [hl]; simp [tabMap, dfMap]
    · simp [tabMap, hdm, hl]
    · by_cases hl : l = [] <;> simp [tabMap, hdm, hl]
  · intro l cla clo ms h
    by_cases hl : l = []
    · rw [hl] at h; simp [tabMap, dfMap] at h
    · by_cases hdm : dfMap l = []
      · simp [tabMap, hl, hdm] at h
      · obtain ⟨r, hr⟩ := List.exists_mem_of_ne_nil _ hdm
        have := List.mem_filter.mp hr
        exact ⟨r, this.1, by simpa using this.2⟩

/-- Concrete instantiation of `map_no_mappable_state`: a one-row subset
whose row has no coordinates yields the no-mappable-rows notice. -/
theorem map_no_mappable_state_witness :
    tabMap
      [{ title := some "A", startYear := some 2005, genres := none,
         averageRating := some 7, budget := some 100, numVotes := none,
         lat := none, lon := none }] = MapView.noMappable :=
  ((map_no_mappable_state.1 _ (by intro r hr; simp at hr; simp [hr])).2.1 (by simp))

theorem applyFilters_isSome (ds : List MovieRecord) (s : FilterState) (r : MovieRecord)
    (h : r ∈ applyFilters ds s) :
    r.startYear.isSome = true ∧ r.averageRating.isSome = true ∧ r.budget.isSome = true := by
  obtain ⟨h1, -, h3, h4⟩ := applyFilters_pred_of_mem ds s r h
  refine ⟨?_, ?_, ?_⟩
  · obtain ⟨y, hy, -⟩ := (betweenI_eq_true_iff _ _ _).mp h1
    simp [hy]
  · obtain ⟨a, ha, -⟩ := (betweenQ_eq_true_iff _ _ _).mp h3
    simp [ha]
  · obtain ⟨b, hb, -⟩ := (betweenQ_eq_true_iff _ _ _).mp h4
    simp [hb]

/-- The row of the C10 reachability example: mappable, passing all slider
filters, with a missing genre. -/
def c10row : MovieRecord :=
  { title := some "A", startYear := some 2005, genres := none,
    averageRating := some 7, budget := some 100, numVotes := none,
    lat := some 1, lon := some 2 }

/-- The filter state of the C10 reachability example: empty genre selection,
all ranges containing `c10row`. -/
def c10state : FilterState :=
  { yearLo := 2000, yearHi := 2010, genres := [], ratingLo := 0, ratingHi := 10,
    budgetLo := 0, budgetHi := 1000 }

/-- C10 (implicit invariant): every row of the filtered subset has
startYear, averageRating and budget present (the three range predicates are
always active); hence the Budget–Rating completeness filter leaves the
filtered subset unchanged; in the map popup the year, rating and budget
fields of a filtered mappable row are always present (their "N/A" fallbacks
are unreachable), while the genre field can be missing, witnessed by a
filtered mappable row with a missing genre. -/
theorem filtered_fields_present :
    (∀ (ds : List MovieRecord) (s : FilterState) (r : MovieRecord),
        r ∈ applyFilters ds s →
          r.startYear.isSome = true ∧ r.averageRating.isSome = true ∧
            r.budget.isSome = true) ∧
      (∀ (ds : List MovieRecord) (s : FilterState),
        dfScatter (applyFilters ds s) = applyFilters ds s) ∧
      (∀ (ds : List MovieRecord) (s : FilterState) (r : MovieRecord),
        r ∈ dfMap (applyFilters ds s) →
          (popupOf r).year.isSome = true ∧ (popupOf r).rating.isSome = true ∧
            (popupOf r).budget.isSome = true) ∧
      ((popupOf c10row).genre = none ∧ c10row ∈ dfMap (applyFilters [c10row] c10state)) := by
  refine ⟨applyFilters_isSome, ?_, ?_, ?_, ?_⟩
  · intro ds s
    rw [dfScatter, List.filter_eq_self]
    intro r hr
    obtain ⟨-, h2, h3⟩ := applyFilters_isSome ds s r hr
    simp [h2, h3]
  · intro ds s r hr
    have hmem : r ∈ applyFilters ds s := (List.mem_filter.mp hr).1
    obtain ⟨h1, h2, h3⟩ := applyFilters_isSome ds s r hmem
    refine ⟨?_, ?_, ?_⟩
    · simpa [popupOf] using h1
    · simpa [popupOf] using h2
    · simpa [popupOf] using h3
  · rfl
  · decide

/-- Concrete instantiation of `filtered_fields_present`: its field-presence
clause applied to the filtered row `c10row`. -/
theorem filtered_fields_present_witness :
    c10row.startYear.isSome = true ∧ c10row.averageRating.isSome = true ∧
      c10row.budget.isSome = true :=
  filtered_fields_present.1 [c10row] c10state c10row (by decide)

/-- The present (non-missing) budget cells, `df["budget"].dropna()`
(line 93). -/
def presentBudgets (l : List MovieRecord) : List ℚ :=
  l.filterMap fun r => r.budget

/-- The present (non-missing) rating cells, `df["averageRating"].dropna()`
(line 107). -/
def presentRatings (l : List MovieRecord) : List ℚ :=
  l.filterMap fun r => r.averageRating

/-- Pandas `Series.quantile(q)` with the default linear interpolation: with
`s` the sorted sample of size `n` and `pos = q * (n - 1)`, the result is
`s[⌊pos⌋] + (pos - ⌊pos⌋) * (s[⌊pos⌋ + 1] - s[⌊pos⌋])` (the second index
falling back to the first at the right edge). -/
def quantileLinear (q : ℚ) (l : List ℚ) : ℚ :=
  let s := l.mergeSort fun a b => decide (a ≤ b)
  let pos := q * ((s.length : ℚ) - 1)
  let i := (⌊pos⌋ : ℤ).toNat
  let frac := pos - ((⌊pos⌋ : ℤ) : ℚ)
  let x0 := s.getD i 0
  let x1 := s.getD (i + 1) x0
  x0 + frac * (x1 - x0)

/-- Lines 93-104: the budget slider default bounds — the 5th and 95th
percentile of the present budgets when any exist, otherwise the degenerate
(0, 1) fallback of line 99. -/
def budgetSliderDefault (l : List MovieRecord) : ℚ × ℚ :=
  let bv := presentBudgets l
  if bv ≠ [] then (quantileLinear (5/100) bv, quantileLinear (95/100) bv)
  else (0, 1)

/-- Lines 107-112: observed min and max of the present ratings, with the
(0, 10) fallback when none are present. -/
def ratingMinMax (l : List MovieRecord) : ℚ × ℚ :=
  let rv := presentRatings l
  if rv ≠ [] then (rv.min?.getD 0, rv.max?.getD 0) else (0, 10)

/-- Lines 116-117: the rating slider bounds `min_value = floor(min_rating)`,
`max_value = ceil(max_rating)` — no clamping here. -/
def ratingSliderBounds (l : List MovieRecord) : ℚ × ℚ :=
  let mm := ratingMinMax l
  (((⌊mm.1⌋ : ℤ) : ℚ), ((⌈mm.2⌉ : ℤ) : ℚ))

/-- Line 118: the rating slider default value — the lower bound clamped to
0.0, the upper bound as is. -/
def ratingSliderDefault (l : List MovieRecord) : ℚ × ℚ :=
  let mm := ratingMinMax l
  (max 0 ((⌊mm.1⌋ : ℤ) : ℚ), ((⌈mm.2⌉ : ℤ) : ℚ))

theorem quantileLinear_perm (q : ℚ) {l l2 : List ℚ} (h : l.Perm l2) :
    quantileLinear q l = quantileLinear q l2 := by
  have htr : ∀ a b c : ℚ, decide (a ≤ b) = true → decide (b ≤ c) = true →
      decide (a ≤ c) = true := by
    intro a b c h1 h2
    simp only [decide_eq_true_iff] at *
    exact h1.trans h2
  have hto : ∀ a b : ℚ, (decide (a ≤ b) || decide (b ≤ a)) = true := by
    intro a b
    simpa using le_total a b
  have hs1 : List.Sorted (fun a b : ℚ => a ≤ b) (l.mergeSort fun a b => decide (a ≤ b)) :=
    (List.sorted_mergeSort htr hto l).imp fun hab => of_decide_eq_true hab
  have hs2 : List.Sorted (fun a b : ℚ => a ≤ b) (l2.mergeSort fun a b => decide (a ≤ b)) :=
    (List.sorted_mergeSort htr hto l2).imp fun hab => of_decide_eq_true hab
  have hs : l.mergeSort (fun a b => decide (a ≤ b)) =
      l2.mergeSort (fun a b => decide (a ≤ b)) :=
    List.eq_of_perm_of_sorted
      ((List.mergeSort_perm l _).trans (h.trans (List.mergeSort_perm l2 _).symm)) hs1 hs2
  unfold quantileLinear
  rw [hs]

/-- The budget sample 1, 2, ..., 100 of the C8 example. -/
def c8budgets : List ℚ :=
  (List.range 100).map fun i : ℕ => ((i : ℚ) + 1)

/-- The dataset of the C8 example: one row per budget 1, 2, ..., 100. -/
def c8ds : List MovieRecord :=
  c8budgets.map fun b =>
    { title := none, startYear := none, genres := none, averageRating := none,
      budget := some b, numVotes := none, lat := none, lon := none }

theorem presentBudgets_c8ds : presentBudgets c8ds = c8budgets := by
  rw [presentBudgets, c8ds, List.filterMap_map]
  exact List.filterMap_eq_map _ ▸ rfl

theorem c8_sorted : List.Sorted (fun a b : ℚ => a ≤ b) c8budgets := by
  rw [c8budgets, List.Sorted, List.pairwise_map]
  refine (List.pairwise_lt_range 100).imp ?_
  intro a b hab
  have hc : (a : ℚ) ≤ (b : ℚ) := by exact_mod_cast hab.le
  linarith

theorem c8_getD (i : ℕ) (hi : i < 100) (d : ℚ) : c8budgets.getD i d = (i : ℚ) + 1 := by
  rw [c8budgets, List.getD_eq_getElem?_getD, List.getElem?_map, List.getElem?_range hi]
  rfl

theorem c8_len : c8budgets.length = 100 := by
  rw [c8budgets, List.length_map, List.length_range]

theorem budget_default_c8 : budgetSliderDefault c8ds = (119/20, 1901/20) := by
  have hms : c8budgets.mergeSort (fun a b => decide (a ≤ b)) = c8budgets :=
    List.mergeSort_eq_self c8_sorted
  have hq5 : quantileLinear (5/100) c8budgets = 119/20 := by
    have hpos : (5/100 : ℚ) * ((100 : ℚ) - 1) = 99/20 := by norm_num
    have hfl : (⌊(99/20 : ℚ)⌋ : ℤ) = 4 := by norm_num
    unfold quantileLinear
    simp only [hms, c8_len, Nat.cast_ofNat, hpos, hfl]
    rw [show ((4:ℤ).toNat) = 4 from rfl]
    rw [c8_getD 4 (by norm_num), c8_getD (4 + 1) (by norm_num)]
    push_cast
    norm_num
  have hq95 : quantileLinear (95/100) c8budgets = 1901/20 := by
    have hpos : (95/100 : ℚ) * ((100 : ℚ) - 1) = 1881/20 := by norm_num
    have hfl : (⌊(1881/20 : ℚ)⌋ : ℤ) = 94 := by norm_num
    unfold quantileLinear
    simp only [hms, c8_len, Nat.cast_ofNat, hpos, hfl]
    rw [show ((94:ℤ).toNat) = 94 from rfl]
    rw [c8_getD 94 (by norm_num), c8_getD (94 + 1) (by norm_num)]
    push_cast
    norm_num
  have hne : presentBudgets c8ds ≠ [] := by
    rw [presentBudgets_c8ds, c8budgets]
    simp
  rw [budgetSliderDefault]
  rw [if_pos hne, presentBudgets_c8ds, hq5, hq95]

/-- C8: with at least one present budget the default budget slider bounds
are the 5th and 95th linear-interpolation percentiles of the present
budgets; the result is invariant under any reordering of the input rows;
and on the sample 1, 2, ..., 100 the bounds are (5.95, 95.05), i.e. the 5th
and 95th percentile of that sample. -/
theorem budget_default_quantile :
    (∀ l : List MovieRecord, presentBudgets l ≠ [] →
        budgetSliderDefault l =
          (quantileLinear (5/100) (presentBudgets l),
           quantileLinear (95/100) (presentBudgets l))) ∧
      (∀ l l2 : List MovieRecord, l.Perm l2 →
        budgetSliderDefault l = budgetSliderDefault l2) ∧
      budgetSliderDefault c8ds = (119/20, 1901/20) := by
  refine ⟨fun l hne => ?_, fun l l2 h => ?_, budget_default_c8⟩
  · rw [budgetSliderDefault, if_pos hne]
  · have hp : (presentBudgets l).Perm (presentBudgets l2) := by
      unfold presentBudgets
      exact List.Perm.filterMap _ h
    by_cases hb : presentBudgets l = []
    · have hb2 : presentBudgets l2 = [] := (hb ▸ hp).symm.eq_nil
      rw [budgetSliderDefault, budgetSliderDefault]
      simp [hb, hb2]
    · have hb2 : presentBudgets l2 ≠ [] := fun hc => hb (hc ▸ hp.symm).symm.eq_nil
      rw [budgetSliderDefault, budgetSliderDefault, if_pos hb, if_pos hb2,
        quantileLinear_perm (5/100) hp, quantileLinear_perm (95/100) hp]

/-- Concrete instantiation of `budget_default_quantile`: its percentile
clause applied to the 1..100 sample dataset. -/
theorem budget_default_quantile_witness :
    budgetSliderDefault c8ds =
      (quantileLinear (5/100) (presentBudgets c8ds),
       quantileLinear (95/100) (presentBudgets c8ds)) :=
  budget_default_quantile.1 c8ds (by rw [presentBudgets_c8ds, c8budgets]; simp)

theorem presentRatings_min_mem (l : List MovieRecord) (hne : presentRatings l ≠ []) :
    ∃ m, (presentRatings l).min? = some m ∧ m ∈ presentRatings l := by
  cases hm : (presentRatings l).min? with
  | none => exact absurd (List.min?_eq_none_iff.mp hm) hne
  | some m => exact ⟨m, rfl, List.min?_mem min_choice hm⟩

theorem ceil_neg5_q : (⌈(-5 : ℚ)⌉ : ℤ) = -5 := by
  rw [show ((-5 : ℚ)) = (((-5 : ℤ)) : ℚ) by norm_num]
  exact Int.ceil_intCast (-5)

/-- A one-row dataset with an out-of-domain rating -5, separating the slider
bounds (unclamped) from the default value (lower bound clamped to 0). -/
def c9negds : List MovieRecord :=
  [{ title := none, startYear := none, genres := none, averageRating := some (-5),
     budget := none, numVotes := none, lat := none, lon := none }]

/-- C9: when the present ratings are non-empty and lie in [0, 10], the
default rating slider range equals (floor of the minimum rating, ceiling of
the maximum rating) — the clamp of the default lower bound to 0 is a no-op
there, so default and slider bounds coincide; and the clamp touches only the
default value, not the slider bounds, witnessed by an out-of-domain rating
-5 for which the bounds stay (-5, -5) while the default becomes (0, -5). -/
theorem rating_default_floor_ceil :
    (∀ l : List MovieRecord, presentRatings l ≠ [] →
        (∀ a ∈ presentRatings l, 0 ≤ a ∧ a ≤ 10) →
        ratingSliderDefault l = ratingSliderBounds l ∧
        ratingSliderDefault l =
          (((⌊(presentRatings l).min?.getD 0⌋ : ℤ) : ℚ),
           ((⌈(presentRatings l).max?.getD 0⌉ : ℤ) : ℚ))) ∧
      (ratingSliderBounds c9negds = (-5, -5) ∧ ratingSliderDefault c9negds = (0, -5)) := by
  constructor
  · intro l hne hrange
    obtain ⟨m, hm, hmem⟩ := presentRatings_min_mem l hne
    have h0f : (0 : ℚ) ≤ ((⌊m⌋ : ℤ) : ℚ) := by
      exact_mod_cast Int.floor_nonneg.mpr (hrange m hmem).1
    have hmm : ratingMinMax l =
        ((presentRatings l).min?.getD 0, (presentRatings l).max?.getD 0) := by
      rw [ratingMinMax, if_pos hne]
    constructor
    · rw [ratingSliderDefault, ratingSliderBounds, hmm]
      simp only [hm, Option.getD_some]
      rw [max_eq_right h0f]
    · rw [ratingSliderDefault, hmm]
      simp only [hm, Option.getD_some]
      rw [max_eq_right h0f]
  · constructor
    · rw [ratingSliderBounds, ratingMinMax]
      rw [if_pos (by simp [presentRatings, c9negds])]
      simp [presentRatings, c9negds]
      norm_num [ceil_neg5_q]
    · rw [ratingSliderDefault, ratingMinMax]
      rw [if_pos (by simp [presentRatings, c9negds])]
      simp [presentRatings, c9negds]
      norm_num [ceil_neg5_q]

/-- Concrete instantiation of `rating_default_floor_ceil`: a dataset whose
only rating is 7 has default slider range equal to the slider bounds. -/
theorem rating_default_floor_ceil_witness :
    ratingSliderDefault
        [{ title := none, startYear := none, genres := none, averageRating := some 7,
           budget := none, numVotes := none, lat := none, lon := none }] =
      ratingSliderBounds
        [{ title := none, startYear := none, genres := none, averageRating := some 7,
           budget := none, numVotes := none, lat := none, lon := none }] :=
  (rating_default_floor_ceil.1 _ (by simp [presentRatings])
    (by
      intro a ha
      simp [presentRatings] at ha
      rw [ha]
      norm_num)).1
